import Mathlib

/-! Verification development for a Solana wallet web application.

The Lean definitions below shallowly embed the formatting, classification,
validation and error-handling logic of the application's three source files:
`src/lib/utils.ts`, `src/components/transaction-list.tsx` (the
`TransactionList`, `SendSol` and `BalanceDisplay` components) and the service
module containing `SolanaService`.  JavaScript numbers are idealised as exact
rationals (`ℚ`), with the special values `NaN` and the infinities modelled
explicitly where the code can produce them; JavaScript strings are Lean
`String`s.  The external SDK (`@solana/web3.js`, wallet adapter) is modelled
by oracle parameters: a record of per-call outcomes for the RPC connection,
and function parameters for `Number` coercion and `PublicKey` parsing. -/

namespace SolanaApp

/-! ### JavaScript string and number primitives used by the source -/

/-- Models `String.prototype.trim`: strip leading and trailing whitespace. -/
def jsTrim (s : String) : String :=
  ⟨((s.data.dropWhile Char.isWhitespace).reverse.dropWhile Char.isWhitespace).reverse⟩

/-- Models `String.prototype.includes`: substring containment. -/
def jsIncludes (s pat : String) : Bool := decide (pat.data <:+: s.data)

/-- Models `s.slice(0, n)` for `n ≥ 0`: the first `n` characters. -/
def strTake (s : String) (n : ℕ) : String := ⟨s.data.take n⟩

/-- The last `n` characters of `s`. -/
def strTakeRight (s : String) (n : ℕ) : String := ⟨s.data.drop (s.data.length - n)⟩

/-- Models `s.slice(-n)` for `n ≥ 0`: for `n = 0` JavaScript treats the start
index `-0` as `0` and returns the whole string; otherwise the last `n`
characters. -/
def jsSliceNeg (s : String) (n : ℕ) : String := if n = 0 then s else strTakeRight s n

/-- Decimal digit characters of `m`, most significant first.  Fuel-based so
that the kernel can evaluate it; `natDigitsStr` always supplies enough fuel. -/
def natDigitsAux : ℕ → ℕ → List Char
  | 0, _ => []
  | fuel + 1, m =>
    if m < 10 then [Nat.digitChar m]
    else natDigitsAux fuel (m / 10) ++ [Nat.digitChar (m % 10)]

/-- Decimal digit characters of `m`, most significant first. -/
def natDigitsStr (m : ℕ) : List Char := natDigitsAux (m + 1) m

/-- The last `n` decimal digits of `m`, zero padded to exactly `n` characters. -/
def digitsPadded : ℕ → ℕ → List Char
  | 0, _ => []
  | n + 1, m => digitsPadded n (m / 10) ++ [Nat.digitChar (m % 10)]

/-- Models `Number.prototype.toFixed(f)` on the idealised rational value of a
JavaScript number, for magnitudes below `10^21` (the only range these sources
feed through it; beyond that JavaScript switches to exponential notation).
Per ECMA-262 the sign is printed separately and the digit string is the
integer `n` minimising the distance of `n / 10^f` to the magnitude, ties
resolved upward — that is `n = ⌊|x| · 10^f + 1/2⌋`, computed below directly on
the numerator and denominator so that it stays in `ℕ`. -/
def jsToFixed (q : ℚ) (f : ℕ) : String :=
  let n : ℕ := (2 * q.num.natAbs * 10 ^ f + q.den) / (2 * q.den)
  let sign : String := if q.num < 0 then "-" else ""
  if f = 0 then sign ++ ⟨natDigitsStr n⟩
  else sign ++ ⟨natDigitsStr (n / 10 ^ f)⟩ ++ "." ++ ⟨digitsPadded f n⟩

/-- Fuel-based count of how many times `p` (`p ≥ 2`) divides `m`. -/
def pValAux : ℕ → ℕ → ℕ → ℕ
  | 0, _, _ => 0
  | fuel + 1, p, m =>
    if 2 ≤ p ∧ 0 < m ∧ m % p = 0 then pValAux fuel p (m / p) + 1 else 0

/-- Smallest `n` with `d ∣ 10 ^ n`, for `d` of the form `2^a · 5^b` (the
denominator of every value a binary double can take). -/
def decExp (d : ℕ) : ℕ := max (pValAux d 2 d) (pValAux d 5 d)

/-- Models radix-10 `Number.prototype.toString` on the idealised rational
value of a JavaScript number, for magnitudes below `10^21`: an optional sign,
the integer digits, and — when the value is not an integer — a dot followed by
the exact (finite, trailing-zero-free) fraction digits. -/
def jsNumToString (q : ℚ) : String :=
  let n := decExp q.den
  let m := q.num.natAbs * 10 ^ n / q.den
  let sign : String := if q.num < 0 then "-" else ""
  if n = 0 then sign ++ ⟨natDigitsStr m⟩
  else sign ++ ⟨natDigitsStr (m / 10 ^ n)⟩ ++ "." ++ ⟨digitsPadded n m⟩

/-- `s` is a decimal string with exactly `n` digits after the dot: a nonempty
all-digit integer part, a dot, then exactly `n` digit characters. -/
def decForm (s : String) (n : ℕ) : Prop :=
  ∃ a b : List Char, s.data = a ++ '.' :: b ∧ b.length = n ∧ a ≠ [] ∧
    (∀ c ∈ a, c.isDigit = true) ∧ (∀ c ∈ b, c.isDigit = true)

/-- As `decForm`, followed by the single suffix character `suf`. -/
def sufForm (s : String) (n : ℕ) (suf : Char) : Prop :=
  ∃ a b : List Char, s.data = a ++ '.' :: b ++ [suf] ∧ b.length = n ∧ a ≠ [] ∧
    (∀ c ∈ a, c.isDigit = true) ∧ (∀ c ∈ b, c.isDigit = true)

/-- A JavaScript number as produced by `Number(string)`: `NaN`, a signed
infinity, or a finite value idealised as an exact rational. -/
inductive JsNum where
  | nan
  | inf
  | ninf
  | fin (q : ℚ)
deriving DecidableEq

/-- JavaScript `isNaN` on an already-coerced number. -/
def jsIsNaN : JsNum → Bool
  | .nan => true
  | _ => false

/-- JavaScript `<=` on numbers (false whenever either side is `NaN`). -/
def jsLe : JsNum → JsNum → Bool
  | .nan, _ => false
  | _, .nan => false
  | .ninf, _ => true
  | _, .ninf => false
  | _, .inf => true
  | .inf, _ => false
  | .fin a, .fin b => decide (a ≤ b)

/-- JavaScript `<` on numbers (false whenever either side is `NaN`). -/
def jsLt : JsNum → JsNum → Bool
  | .nan, _ => false
  | _, .nan => false
  | .ninf, .ninf => false
  | .ninf, _ => true
  | _, .ninf => false
  | .inf, _ => false
  | _, .inf => true
  | .fin a, .fin b => decide (a < b)

/-- JavaScript `*` on numbers (`0 · ∞` is `NaN`). -/
def jsMul : JsNum → JsNum → JsNum
  | .nan, _ => .nan
  | _, .nan => .nan
  | .inf, .inf => .inf
  | .inf, .ninf => .ninf
  | .ninf, .inf => .ninf
  | .ninf, .ninf => .inf
  | .inf, .fin b => if 0 < b then .inf else if b < 0 then .ninf else .nan
  | .fin a, .inf => if 0 < a then .inf else if a < 0 then .ninf else .nan
  | .ninf, .fin b => if 0 < b then .ninf else if b < 0 then .inf else .nan
  | .fin a, .ninf => if 0 < a then .ninf else if a < 0 then .inf else .nan
  | .fin a, .fin b => .fin (a * b)

/-- Digit-sequence value accumulator for `parseDecimalLit`; `none` on the
first non-digit character. -/
def digitsToNat : List Char → ℕ → Option ℕ
  | [], acc => some acc
  | c :: cs, acc => if c.isDigit then digitsToNat cs (acc * 10 + (c.toNat - 48)) else none

/-- Parses an unsigned decimal literal `digits [. digits]` (either side of the
dot may be empty, but not both) — the fragment of the ECMAScript numeric
string grammar the checked inputs exercise. -/
def parseDecimalLit (cs : List Char) : Option ℚ :=
  match cs.splitOn '.' with
  | [ip] => if ip = [] then none else (digitsToNat ip 0).map (fun v => (v : ℚ))
  | [ip, fp] =>
    if ip = [] ∧ fp = [] then none
    else
      match digitsToNat ip 0, digitsToNat fp 0 with
      | some i, some f => some ((i : ℚ) + (f : ℚ) / 10 ^ fp.length)
      | _, _ => none
  | _ => none

/-- Modelled from ECMAScript `ToNumber` applied to a string (the fragment
relevant here): whitespace-only input is `0`, the `Infinity` forms give the
infinities, and otherwise an optionally signed decimal literal is parsed
(exponent and non-decimal-radix forms, which none of the checked inputs use,
fall to `NaN`). -/
def jsNumber (s : String) : JsNum :=
  let t := (jsTrim s).data
  if t = [] then .fin 0
  else if t = "Infinity".data ∨ t = "+Infinity".data then .inf
  else if t = "-Infinity".data then .ninf
  else
    match t with
    | '+' :: rest => (parseDecimalLit rest).elim .nan .fin
    | '-' :: rest => (parseDecimalLit rest).elim .nan (fun q => .fin (-q))
    | _ => (parseDecimalLit t).elim .nan .fin

/-! ### `src/lib/utils.ts` -/

/-- From `src/lib/utils.ts`, `formatAddress`: truncate an address to
`prefix...suffix` (`chars` defaults to 4 in the source); the `!address` guard
returns the empty string on empty input. -/
def formatAddress (address : String) (chars : ℕ := 4) : String :=
  if address = "" then ""
  else strTake address chars ++ "..." ++ jsSliceNeg address chars

/-- From the service module, the exported `formatPublicKey` helper (textually
the same logic as `formatAddress`). -/
def formatPublicKey (publicKey : String) (chars : ℕ := 4) : String :=
  if publicKey = "" then ""
  else strTake publicKey chars ++ "..." ++ jsSliceNeg publicKey chars

/-- From `src/lib/utils.ts`, `formatNumber`: abbreviate with a `K`/`M`/`B`
suffix and two-decimal rounding, else return the plain string form. -/
def formatNumber (num : ℚ) : String :=
  if num ≥ 1000000000 then jsToFixed (num / 1000000000) 2 ++ "B"
  else if num ≥ 1000000 then jsToFixed (num / 1000000) 2 ++ "M"
  else if num ≥ 1000 then jsToFixed (num / 1000) 2 ++ "K"
  else jsNumToString num

/-- The cluster selector of `getExplorerUrl`/`getAccountExplorerUrl`. -/
inductive Cluster where
  | mainnetBeta
  | devnet
  | testnet
deriving DecidableEq

/-- The string form of a cluster tag, as interpolated by the source. -/
def Cluster.tag : Cluster → String
  | .mainnetBeta => "mainnet-beta"
  | .devnet => "devnet"
  | .testnet => "testnet"

/-- From `src/lib/utils.ts`, `getExplorerUrl` (default cluster
`mainnet-beta`): the base URL is the bare origin for `mainnet-beta` and the
origin with `?cluster=<tag>` otherwise, and `/tx/<signature>` is appended to
that base. -/
def getExplorerUrl (signature : String) (cluster : Cluster := .mainnetBeta) : String :=
  let baseUrl :=
    if cluster = .mainnetBeta then "https://explorer.solana.com"
    else "https://explorer.solana.com?cluster=" ++ cluster.tag
  baseUrl ++ "/tx/" ++ signature

/-- From `src/lib/utils.ts`, `getAccountExplorerUrl`: same base-URL choice,
with `/account/<address>` appended. -/
def getAccountExplorerUrl (address : String) (cluster : Cluster := .mainnetBeta) : String :=
  let baseUrl :=
    if cluster = .mainnetBeta then "https://explorer.solana.com"
    else "https://explorer.solana.com?cluster=" ++ cluster.tag
  baseUrl ++ "/account/" ++ address

/-! ### The external connection, and the two `getBalance` helpers -/

/-- An entry of the `getSignaturesForAddress` result, as consumed here. -/
structure SigInfo where
  signature : String
  slot : ℕ
  blockTime : Option ℤ
deriving DecidableEq

/-- The behaviour of the external `@solana/web3.js` `Connection` during one
call sequence: each RPC entry point either returns a payload (`ok`) or throws
an error, carried as its message (`error`).  Payload types this codebase never
inspects are abstracted to `String`. -/
structure Connection where
  getBalance : Except String ℕ
  getAccountInfo : Except String (Option String)
  sendTransaction : Except String String
  confirmTransaction : String → Except String Unit
  getLatestBlockhash : Except String String
  getSignaturesForAddress : Except String (List SigInfo)
  getTransaction : String → Except String (Option String)
  getSlot : Except String ℕ
  getEpochInfo : Except String String

/-- From `src/lib/utils.ts`, the free helper `getBalance`: return the lamport
balance, and on any fault log the error and return `0` instead of raising.
The first component is the `console.error` log produced by the call, in
order; the second is the value the caller sees.  The function is total: no
outcome of the underlying call makes it raise. -/
def utilsGetBalance (connection : Connection) : List String × ℕ :=
  match connection.getBalance with
  | .ok balance => ([], balance)
  | .error e => (["Error fetching balance: " ++ e], 0)

/-! ### The `SolanaService` facade -/

/-- `LAMPORTS_PER_SOL` from `@solana/web3.js`. -/
def LAMPORTS_PER_SOL : ℚ := 1000000000

/-- An entry of the `SolanaService.getTransactionHistory` result. -/
structure HistoryEntry where
  signature : String
  slot : ℕ
  blockTime : Option ℤ
  transaction : Option String
deriving DecidableEq

namespace SolanaService

/-- `SolanaService.getBalance`: the SOL balance on success; on any underlying
fault, log it (`console.error`, first component) and raise the generic
`Failed to fetch balance` error. -/
def getBalance (connection : Connection) : List String × Except String ℚ :=
  match connection.getBalance with
  | .ok balance => ([], .ok ((balance : ℚ) / LAMPORTS_PER_SOL))
  | .error e => (["Error fetching balance: " ++ e], .error "Failed to fetch balance")

/-- `SolanaService.getAccountInfo`: passthrough, with the generic error. -/
def getAccountInfo (connection : Connection) : List String × Except String (Option String) :=
  match connection.getAccountInfo with
  | .ok info => ([], .ok info)
  | .error e => (["Error fetching account info: " ++ e], .error "Failed to fetch account info")

/-- `SolanaService.sendTransaction`: submit, then confirm at `confirmed`
commitment; a fault in either step is logged and raised as the generic
`Failed to send transaction` error. -/
def sendTransaction (connection : Connection) : List String × Except String String :=
  match connection.sendTransaction with
  | .error e => (["Error sending transaction: " ++ e], .error "Failed to send transaction")
  | .ok signature =>
    match connection.confirmTransaction signature with
    | .error e => (["Error sending transaction: " ++ e], .error "Failed to send transaction")
    | .ok _ => ([], .ok signature)

/-- `SolanaService.transferSol`: build a system transfer (pure), submit and
confirm; a fault in either network step is logged and raised as the generic
`Failed to transfer SOL` error. -/
def transferSol (connection : Connection) : List String × Except String String :=
  match connection.sendTransaction with
  | .error e => (["Error transferring SOL: " ++ e], .error "Failed to transfer SOL")
  | .ok signature =>
    match connection.confirmTransaction signature with
    | .error e => (["Error transferring SOL: " ++ e], .error "Failed to transfer SOL")
    | .ok _ => ([], .ok signature)

/-- `SolanaService.getRecentBlockhash`: the blockhash of
`getLatestBlockhash`, with the generic error. -/
def getRecentBlockhash (connection : Connection) : List String × Except String String :=
  match connection.getLatestBlockhash with
  | .ok blockhash => ([], .ok blockhash)
  | .error e =>
    (["Error fetching recent blockhash: " ++ e], .error "Failed to fetch recent blockhash")

/-- The `Promise.all` body of `getTransactionHistory`: resolve every signature
to its transaction; any rejection rejects the whole batch, so no partial list
is ever produced. -/
def fetchAll (connection : Connection) : List SigInfo → Except String (List HistoryEntry)
  | [] => .ok []
  | sig :: rest =>
    match connection.getTransaction sig.signature with
    | .error e => .error e
    | .ok tx =>
      match fetchAll connection rest with
      | .error e => .error e
      | .ok entries => .ok (⟨sig.signature, sig.slot, sig.blockTime, tx⟩ :: entries)

/-- `SolanaService.getTransactionHistory`: list signatures, resolve each; any
fault anywhere is logged and raised as the generic
`Failed to fetch transaction history` error. -/
def getTransactionHistory (connection : Connection) :
    List String × Except String (List HistoryEntry) :=
  match connection.getSignaturesForAddress with
  | .error e =>
    (["Error fetching transaction history: " ++ e],
      .error "Failed to fetch transaction history")
  | .ok sigs =>
    match fetchAll connection sigs with
    | .error e =>
      (["Error fetching transaction history: " ++ e],
        .error "Failed to fetch transaction history")
    | .ok entries => ([], .ok entries)

/-- `SolanaService.getSlot`: passthrough, with the generic error. -/
def getSlot (connection : Connection) : List String × Except String ℕ :=
  match connection.getSlot with
  | .ok slot => ([], .ok slot)
  | .error e => (["Error fetching slot: " ++ e], .error "Failed to fetch slot")

/-- `SolanaService.getEpochInfo`: passthrough, with the generic error. -/
def getEpochInfo (connection : Connection) : List String × Except String String :=
  match connection.getEpochInfo with
  | .ok info => ([], .ok info)
  | .error e => (["Error fetching epoch info: " ++ e], .error "Failed to fetch epoch info")

/-- `SolanaService.lamportsToSol`. -/
def lamportsToSol (lamports : ℚ) : ℚ := lamports / LAMPORTS_PER_SOL

/-- `SolanaService.solToLamports`. -/
def solToLamports (sol : ℚ) : ℚ := sol * LAMPORTS_PER_SOL

end SolanaService

/-! ### The `TransactionList` component (`src/components/transaction-list.tsx`) -/

/-- The classification a record can receive. -/
inductive TxType where
  | sent
  | received
  | swap
  | stake
  | unknown
deriving DecidableEq

/-- The status a record can receive (`meta?.err ? 'failed' : 'success'`). -/
inductive TxStatus where
  | success
  | failed
deriving DecidableEq

/-- A token-balance entry of `meta.preTokenBalances`; only its presence is
inspected by the classifier. -/
structure TokenBalance where
  accountIndex : ℕ
deriving DecidableEq

/-- An instruction as inspected by the classifier: the string form of its
`programId` when the instruction has a `programId` field (`'programId' in ix`),
`none` otherwise. -/
structure Instruction where
  programId : Option String
deriving DecidableEq

/-- The fields of `tx.meta` this component reads. -/
structure TxMeta where
  preBalances : List ℕ
  postBalances : List ℕ
  fee : ℕ
  preTokenBalances : List TokenBalance
  err : Bool
deriving DecidableEq

/-- A parsed transaction as consumed by the per-record mapping. -/
structure ParsedTransactionWithMeta where
  meta : Option TxMeta
  instructions : List Instruction
deriving DecidableEq

/-- `meta?.preBalances[0] || 0`. -/
def preBalance0 (tx : ParsedTransactionWithMeta) : ℕ :=
  (tx.meta.map fun m => m.preBalances.headD 0).getD 0

/-- `meta?.postBalances[0] || 0`. -/
def postBalance0 (tx : ParsedTransactionWithMeta) : ℕ :=
  (tx.meta.map fun m => m.postBalances.headD 0).getD 0

/-- `balanceChange = postBalance - preBalance`, the first-account balance
delta in lamports. -/
def balanceChange (tx : ParsedTransactionWithMeta) : ℤ :=
  (postBalance0 tx : ℤ) - (preBalance0 tx : ℤ)

/-- `meta?.fee || 0`, in lamports. -/
def feeLamports (tx : ParsedTransactionWithMeta) : ℕ :=
  (tx.meta.map fun m => m.fee).getD 0

/-- `meta?.preTokenBalances || []`, the token-balance entries the classifier
counts. -/
def tokenTransfers (tx : ParsedTransactionWithMeta) : List TokenBalance :=
  (tx.meta.map fun m => m.preTokenBalances).getD []

/-- `instructions.some(ix => 'programId' in ix && ix.programId.toString().includes('Stake'))`. -/
def hasStakeInstruction (tx : ParsedTransactionWithMeta) : Bool :=
  tx.instructions.any fun ix =>
    match ix.programId with
    | some pid => jsIncludes pid "Stake"
    | none => false

/-- `meta?.err`, coerced to a truth value by the conditional. -/
def metaErr (tx : ParsedTransactionWithMeta) : Bool :=
  (tx.meta.map fun m => m.err).getD false

/-- The display record (interface `Transaction` in `transaction-list.tsx`).
`from` and `to` are Lean keywords, hence `fromAddr`/`toAddr`. -/
structure Transaction where
  signature : String
  slot : ℕ
  blockTime : Option ℤ
  fee : ℚ
  status : TxStatus
  type : TxType
  amount : ℚ
  token : String
  fromAddr : String
  toAddr : String

/-- The per-record mapping inside `fetchTransactions` (lines 52–99 of
`transaction-list.tsx`).  The source initialises `type = 'unknown'` and
`amount = |balanceChange| / 1e9`, overwrites them in the `received`/`sent`
branches (the `sent` branch sets `amount = |balanceChange + fee| / 1e9`),
then overrides `type` to `swap` when token entries are present (also setting
`token = 'TOKEN'`), and finally overrides `type` to `stake` when a stake
instruction is present; the successive mutations are modelled by the
successive `let`s. -/
def parseTransaction (publicKey : String) (sig : SigInfo)
    (tx : ParsedTransactionWithMeta) : Transaction :=
  let bc := balanceChange tx
  let fee := feeLamports tx
  let base : TxType × ℚ :=
    if bc > 0 then (.received, (bc.natAbs : ℚ) / 1000000000)
    else if bc < 0 then (.sent, ((bc + (fee : ℤ)).natAbs : ℚ) / 1000000000)
    else (.unknown, (bc.natAbs : ℚ) / 1000000000)
  let withToken : TxType × String :=
    if (tokenTransfers tx).length > 0 then (.swap, "TOKEN") else (base.1, "SOL")
  let finalType : TxType := if hasStakeInstruction tx then .stake else withToken.1
  { signature := sig.signature
    slot := sig.slot
    blockTime := sig.blockTime
    fee := (fee : ℚ) / 1000000000
    status := if metaErr tx then .failed else .success
    type := finalType
    amount := base.2
    token := withToken.2
    fromAddr := publicKey
    toAddr := "Unknown" }

/-! ### The `BalanceDisplay` component -/

/-- From the `BalanceDisplay` component, `formatBalance`: three-tier display
precision. -/
def formatBalance (balance : ℚ) : String :=
  if balance = 0 then "0.00"
  else if balance < 0.001 then jsToFixed balance 6
  else if balance < 1 then jsToFixed balance 4
  else jsToFixed balance 2

/-! ### The `SendSol` component -/

/-- The outcome of `validateInputs`: `false` with an error status message, or
`true`. -/
inductive ValidationResult where
  | invalid (message : String)
  | valid
deriving DecidableEq

/-- From the `SendSol` component, `validateInputs`.  `numberOf` is the
JavaScript `Number` coercion and `isValidKey` the `new PublicKey(...)`
try/catch, both supplied by the runtime/SDK; `validateInputs` itself performs
no network call (it is a pure function of its inputs). -/
def validateInputs (numberOf : String → JsNum) (isValidKey : String → Bool)
    (recipient amount : String) : ValidationResult :=
  if jsTrim recipient = "" then .invalid "Recipient address is required"
  else if jsTrim amount = "" || jsIsNaN (numberOf amount) || jsLe (numberOf amount) (.fin 0) then
    .invalid "Please enter a valid amount"
  else if !isValidKey recipient then .invalid "Invalid recipient address"
  else .valid

/-- The network calls `handleSendSol` can make, in program order. -/
structure SendConnection where
  getBalance : Except String ℚ
  getLatestBlockhash : Except String String
  sendTransaction : Except String String
  confirmTransaction : String → Except String Unit

/-- The reported status after `handleSendSol`. -/
inductive SendStatus where
  | cleared
  | success (message : String)
  | error (message : String)
deriving DecidableEq

/-- From the `SendSol` component, `handleSendSol`: wallet guard, input
validation, then — inside the try block — balance check, blockhash fetch,
submission and confirmation.  The first component lists the names of the
network calls made, in order; a thrown SDK error carries its message, which
the catch block reports (`error instanceof Error ? error.message : ...`). -/
def handleSendSol (numberOf : String → JsNum) (isValidKey : String → Bool)
    (connected : Bool) (publicKey : Option String)
    (recipient amount : String) (conn : SendConnection) : List String × SendStatus :=
  if !connected || publicKey.isNone then
    ([], .error "Please connect your wallet first")
  else
    match validateInputs numberOf isValidKey recipient amount with
    | .invalid msg => ([], .error msg)
    | .valid =>
      let lamports := jsMul (numberOf amount) (.fin LAMPORTS_PER_SOL)
      match conn.getBalance with
      | .error e => (["getBalance"], .error e)
      | .ok balance =>
        if jsLt (.fin balance) lamports then (["getBalance"], .error "Insufficient balance")
        else
          match conn.getLatestBlockhash with
          | .error e => (["getBalance", "getLatestBlockhash"], .error e)
          | .ok _ =>
            match conn.sendTransaction with
            | .error e => (["getBalance", "getLatestBlockhash", "sendTransaction"], .error e)
            | .ok signature =>
              match conn.confirmTransaction signature with
              | .error e =>
                (["getBalance", "getLatestBlockhash", "sendTransaction", "confirmTransaction"],
                  .error e)
              | .ok _ =>
                (["getBalance", "getLatestBlockhash", "sendTransaction", "confirmTransaction"],
                  .success ("Successfully sent " ++ amount ++ " SOL! Transaction: " ++
                    strTake signature 8 ++ "..."))

/-! ### Helper lemmas about the string-rendering primitives -/

theorem sdata_append (a b : String) : (a ++ b).data = a.data ++ b.data := rfl

theorem digitChar_isDigit (n : ℕ) (h : n < 10) : (Nat.digitChar n).isDigit = true := by
  interval_cases n <;> decide

theorem natDigitsAux_digits (fuel : ℕ) :
    ∀ m : ℕ, ∀ c ∈ natDigitsAux fuel m, c.isDigit = true := by
  induction fuel with
  | zero => intro m c hc; simp [natDigitsAux] at hc
  | succ fuel ih =>
    intro m c hc
    rw [natDigitsAux] at hc
    by_cases hm : m < 10
    · rw [if_pos hm] at hc
      simp only [List.mem_singleton] at hc
      subst hc
      exact digitChar_isDigit m hm
    · rw [if_neg hm] at hc
      rcases List.mem_append.mp hc with h | h
      · exact ih _ c h
      · simp only [List.mem_singleton] at h
        subst h
        exact digitChar_isDigit _ (Nat.mod_lt _ (by norm_num))

theorem natDigitsStr_digits (m : ℕ) : ∀ c ∈ natDigitsStr m, c.isDigit = true :=
  natDigitsAux_digits (m + 1) m

theorem natDigitsStr_ne_nil (m : ℕ) : natDigitsStr m ≠ [] := by
  rw [natDigitsStr, natDigitsAux]
  by_cases hm : m < 10
  · rw [if_pos hm]; simp
  · rw [if_neg hm]; simp

theorem digitsPadded_length (n : ℕ) : ∀ m : ℕ, (digitsPadded n m).length = n := by
  induction n with
  | zero => intro m; rfl
  | succ n ih => intro m; simp [digitsPadded, ih]

theorem digitsPadded_digits (n : ℕ) :
    ∀ m : ℕ, ∀ c ∈ digitsPadded n m, c.isDigit = true := by
  induction n with
  | zero => intro m c hc; simp [digitsPadded] at hc
  | succ n ih =>
    intro m c hc
    rw [digitsPadded] at hc
    rcases List.mem_append.mp hc with h | h
    · exact ih _ c h
    · simp only [List.mem_singleton] at h
      subst h
      exact digitChar_isDigit _ (Nat.mod_lt _ (by norm_num))

/-- A nonnegative value rendered with `f ≥ 1` fixed decimals is a decimal
string with exactly `f` digits after the dot. -/
theorem jsToFixed_decForm (q : ℚ) (f : ℕ) (hq : 0 ≤ q) (hf : f ≠ 0) :
    decForm (jsToFixed q f) f := by
  have hnum : ¬ q.num < 0 := not_lt.mpr (Rat.num_nonneg.mpr hq)
  refine ⟨natDigitsStr ((2 * q.num.natAbs * 10 ^ f + q.den) / (2 * q.den) / 10 ^ f),
    digitsPadded f ((2 * q.num.natAbs * 10 ^ f + q.den) / (2 * q.den)), ?_,
    digitsPadded_length f _, natDigitsStr_ne_nil _, natDigitsStr_digits _, digitsPadded_digits f _⟩
  simp [jsToFixed, hf, hnum, sdata_append]

/-- Appending a one-character suffix to a `decForm` string gives a `sufForm`
string. -/
theorem sufForm_append_char (s : String) (n : ℕ) (t : String) (c : Char)
    (h : decForm s n) (ht : t.data = [c]) : sufForm (s ++ t) n c := by
  obtain ⟨a, b, hdata, hlen, hne, ha, hb⟩ := h
  exact ⟨a, b, by simp [sdata_append, hdata, ht], hlen, hne, ha, hb⟩

/-! ### C7: unit conversion round-trip -/

/-- C7: base-unit/display-unit conversion is an exact round-trip over the
idealised rational arithmetic: for every `x ≥ 0`,
`lamportsToSol (solToLamports x) = x`. -/
theorem C7_conversion_round_trip (x : ℚ) (_hx : 0 ≤ x) :
    SolanaService.lamportsToSol (SolanaService.solToLamports x) = x := by
  unfold SolanaService.lamportsToSol SolanaService.solToLamports LAMPORTS_PER_SOL
  rw [mul_div_assoc]
  norm_num

/-- Witness for C7 at `x = 3`. -/
theorem C7_witness :
    (0 : ℚ) ≤ 3 ∧ SolanaService.lamportsToSol (SolanaService.solToLamports 3) = 3 :=
  ⟨by norm_num, C7_conversion_round_trip 3 (by norm_num)⟩

/-! ### C4: explorer URL builders -/

/-- C4 counterexample: for the non-default cluster `devnet`, the source
inserts the query parameter into the base URL before appending the path, so
at signature `abc` the produced URL is
`https://explorer.solana.com?cluster=devnet/tx/abc`, not the claimed bare
path with `?cluster=devnet` appended after it. -/
theorem C4_counterexample :
    getExplorerUrl "abc" .devnet = "https://explorer.solana.com?cluster=devnet/tx/abc" ∧
    getExplorerUrl "abc" .devnet ≠ "https://explorer.solana.com/tx/abc?cluster=devnet" := by
  exact ⟨rfl, by decide⟩

/-- C4 (amended): for the default cluster `mainnet-beta` both builders return
the bare-path URL (no query parameter); for `devnet` and `testnet` they
return the same origin with `?cluster=<tag>` inserted between the origin and
the `/tx/…` (respectively `/account/…`) path segment — not appended after the
path. -/
theorem C4_explorer_urls (s : String) :
    getExplorerUrl s .mainnetBeta = "https://explorer.solana.com/tx/" ++ s ∧
    getAccountExplorerUrl s .mainnetBeta = "https://explorer.solana.com/account/" ++ s ∧
    getExplorerUrl s .devnet = "https://explorer.solana.com?cluster=devnet/tx/" ++ s ∧
    getExplorerUrl s .testnet = "https://explorer.solana.com?cluster=testnet/tx/" ++ s ∧
    getAccountExplorerUrl s .devnet = "https://explorer.solana.com?cluster=devnet/account/" ++ s ∧
    getAccountExplorerUrl s .testnet = "https://explorer.solana.com?cluster=testnet/account/" ++ s :=
  ⟨rfl, rfl, rfl, rfl, rfl, rfl⟩

/-! ### C10: the silent free `getBalance` helper -/

/-- C10: the free helper `getBalance` of `utils.ts` never raises — on any
underlying fault it logs the error and returns `0` — so at the call site a
failed fetch is indistinguishable from a genuine zero balance, unlike the
facade method `SolanaService.getBalance`, which raises its generic error on
the same fault. -/
theorem C10_utils_getBalance_silent (c c0 : Connection) (e : String)
    (hc : c.getBalance = .error e) (hc0 : c0.getBalance = .ok 0) :
    utilsGetBalance c = (["Error fetching balance: " ++ e], 0) ∧
    (utilsGetBalance c).2 = (utilsGetBalance c0).2 ∧
    (SolanaService.getBalance c).2 = .error "Failed to fetch balance" := by
  refine ⟨?_, ?_, ?_⟩ <;> simp [utilsGetBalance, SolanaService.getBalance, hc, hc0]

/-- A connection whose every entry point faults with message `boom`. -/
def connFault : Connection :=
  ⟨.error "boom", .error "boom", .error "boom", fun _ => .error "boom", .error "boom",
    .error "boom", fun _ => .error "boom", .error "boom", .error "boom"⟩

/-- A connection whose every entry point succeeds (balance `0`). -/
def connZero : Connection :=
  ⟨.ok 0, .ok none, .ok "sg", fun _ => .ok (), .ok "bh", .ok [], fun _ => .ok none, .ok 0, .ok "ep"⟩

/-- Witness for C10 on the all-faulting connection and the zero-balance one. -/
theorem C10_witness :
    connFault.getBalance = .error "boom" ∧ connZero.getBalance = .ok 0 ∧
    utilsGetBalance connFault = (["Error fetching balance: boom"], 0) ∧
    (utilsGetBalance connFault).2 = (utilsGetBalance connZero).2 ∧
    (SolanaService.getBalance connFault).2 = .error "Failed to fetch balance" := by
  have h := C10_utils_getBalance_silent connFault connZero "boom" rfl rfl
  exact ⟨rfl, rfl, h.1, h.2.1, h.2.2⟩

/-! ### C3: generic errors of the `SolanaService` facade -/

/-- If some signature in the batch resolves to a fault, the whole
`Promise.all` batch faults: no partial history list is produced. -/
theorem fetchAll_error_of_mem (c : Connection) (sigs : List SigInfo) (sig : SigInfo)
    (hmem : sig ∈ sigs) (e : String) (he : c.getTransaction sig.signature = .error e) :
    ∃ e2, SolanaService.fetchAll c sigs = .error e2 := by
  induction sigs with
  | nil => cases hmem
  | cons s rest ih =>
    rcases List.mem_cons.mp hmem with h | h
    · subst h
      exact ⟨e, by rw [SolanaService.fetchAll, he]⟩
    · rw [SolanaService.fetchAll]
      cases hs : c.getTransaction s.signature with
      | error e3 => exact ⟨e3, rfl⟩
      | ok tx =>
        obtain ⟨e2, h2⟩ := ih h
        rw [h2]
        exact ⟨e2, rfl⟩

/-- C3: every network-calling method of the `SolanaService` facade fails with
its generic error on any underlying fault — the first failure aborts the
call, and for the history batch no partial result is ever returned — and the
underlying error is logged to the diagnostic stream (the log component)
together with the raised generic error. -/
theorem C3_service_generic_errors (c : Connection) (e : String) :
    (c.getBalance = .error e →
      SolanaService.getBalance c =
        (["Error fetching balance: " ++ e], .error "Failed to fetch balance")) ∧
    (c.getAccountInfo = .error e →
      SolanaService.getAccountInfo c =
        (["Error fetching account info: " ++ e], .error "Failed to fetch account info")) ∧
    (c.sendTransaction = .error e →
      SolanaService.sendTransaction c =
        (["Error sending transaction: " ++ e], .error "Failed to send transaction")) ∧
    (∀ sig, c.sendTransaction = .ok sig → c.confirmTransaction sig = .error e →
      SolanaService.sendTransaction c =
        (["Error sending transaction: " ++ e], .error "Failed to send transaction")) ∧
    (c.sendTransaction = .error e →
      SolanaService.transferSol c =
        (["Error transferring SOL: " ++ e], .error "Failed to transfer SOL")) ∧
    (∀ sig, c.sendTransaction = .ok sig → c.confirmTransaction sig = .error e →
      SolanaService.transferSol c =
        (["Error transferring SOL: " ++ e], .error "Failed to transfer SOL")) ∧
    (c.getLatestBlockhash = .error e →
      SolanaService.getRecentBlockhash c =
        (["Error fetching recent blockhash: " ++ e], .error "Failed to fetch recent blockhash")) ∧
    (c.getSignaturesForAddress = .error e →
      SolanaService.getTransactionHistory c =
        (["Error fetching transaction history: " ++ e],
          .error "Failed to fetch transaction history")) ∧
    (∀ sigs, c.getSignaturesForAddress = .ok sigs → ∀ sig ∈ sigs,
      c.getTransaction sig.signature = .error e →
      ∃ e2, SolanaService.getTransactionHistory c =
        (["Error fetching transaction history: " ++ e2],
          .error "Failed to fetch transaction history")) ∧
    (c.getSlot = .error e →
      SolanaService.getSlot c = (["Error fetching slot: " ++ e], .error "Failed to fetch slot")) ∧
    (c.getEpochInfo = .error e →
      SolanaService.getEpochInfo c =
        (["Error fetching epoch info: " ++ e], .error "Failed to fetch epoch info")) := by
  refine ⟨?_, ?_, ?_, ?_, ?_, ?_, ?_, ?_, ?_, ?_, ?_⟩
  · intro h; simp [SolanaService.getBalance, h]
  · intro h; simp [SolanaService.getAccountInfo, h]
  · intro h; simp [SolanaService.sendTransaction, h]
  · intro sig h1 h2; simp [SolanaService.sendTransaction, h1, h2]
  · intro h; simp [SolanaService.transferSol, h]
  · intro sig h1 h2; simp [SolanaService.transferSol, h1, h2]
  · intro h; simp [SolanaService.getRecentBlockhash, h]
  · intro h; simp [SolanaService.getTransactionHistory, h]
  · intro sigs hsigs sig hmem hfault
    obtain ⟨e2, h2⟩ := fetchAll_error_of_mem c sigs sig hmem e hfault
    exact ⟨e2, by simp [SolanaService.getTransactionHistory, hsigs, h2]⟩
  · intro h; simp [SolanaService.getSlot, h]
  · intro h; simp [SolanaService.getEpochInfo, h]

/-- Witness for C3 on the all-faulting connection: all eight facade methods
produce their generic error with the underlying message logged. -/
theorem C3_witness :
    SolanaService.getBalance connFault =
      (["Error fetching balance: boom"], .error "Failed to fetch balance") ∧
    SolanaService.getAccountInfo connFault =
      (["Error fetching account info: boom"], .error "Failed to fetch account info") ∧
    SolanaService.sendTransaction connFault =
      (["Error sending transaction: boom"], .error "Failed to send transaction") ∧
    SolanaService.transferSol connFault =
      (["Error transferring SOL: boom"], .error "Failed to transfer SOL") ∧
    SolanaService.getRecentBlockhash connFault =
      (["Error fetching recent blockhash: boom"], .error "Failed to fetch recent blockhash") ∧
    SolanaService.getTransactionHistory connFault =
      (["Error fetching transaction history: boom"],
        .error "Failed to fetch transaction history") ∧
    SolanaService.getSlot connFault = (["Error fetching slot: boom"], .error "Failed to fetch slot") ∧
    SolanaService.getEpochInfo connFault =
      (["Error fetching epoch info: boom"], .error "Failed to fetch epoch info") := by
  have h := C3_service_generic_errors connFault "boom"
  exact ⟨h.1 rfl, h.2.1 rfl, h.2.2.1 rfl, h.2.2.2.2.1 rfl, h.2.2.2.2.2.2.1 rfl,
    h.2.2.2.2.2.2.2.1 rfl, h.2.2.2.2.2.2.2.2.2.1 rfl, h.2.2.2.2.2.2.2.2.2.2 rfl⟩

/-! ### C1: classification precedence -/

/-- C1: the classification precedence of the per-record mapping — a stake
instruction forces `stake` regardless of the balance delta sign or token
entries; otherwise the presence of token-balance entries forces `swap`;
otherwise a positive first-account balance delta gives `received`, a negative
one gives `sent`, and a zero delta leaves the type `unknown`. -/
theorem C1_classification_precedence (pk : String) (sig : SigInfo)
    (tx : ParsedTransactionWithMeta) :
    (hasStakeInstruction tx = true → (parseTransaction pk sig tx).type = .stake) ∧
    (hasStakeInstruction tx = false → tokenTransfers tx ≠ [] →
      (parseTransaction pk sig tx).type = .swap) ∧
    (hasStakeInstruction tx = false → tokenTransfers tx = [] → 0 < balanceChange tx →
      (parseTransaction pk sig tx).type = .received) ∧
    (hasStakeInstruction tx = false → tokenTransfers tx = [] → balanceChange tx < 0 →
      (parseTransaction pk sig tx).type = .sent) ∧
    (hasStakeInstruction tx = false → tokenTransfers tx = [] → balanceChange tx = 0 →
      (parseTransaction pk sig tx).type = .unknown) := by
  refine ⟨?_, ?_, ?_, ?_, ?_⟩
  · intro h1
    simp [parseTransaction, h1]
  · intro h1 h2
    have hlen : 0 < (tokenTransfers tx).length := List.length_pos.mpr h2
    simp [parseTransaction, h1, hlen]
  · intro h1 h2 h3
    simp [parseTransaction, h1, h2, h3]
  · intro h1 h2 h3
    have h4 : ¬ 0 < balanceChange tx := by omega
    simp [parseTransaction, h1, h2, h3, h4]
  · intro h1 h2 h3
    have h4 : ¬ 0 < balanceChange tx := by omega
    have h5 : ¬ balanceChange tx < 0 := by omega
    simp [parseTransaction, h1, h2, h4, h5]

/-- A record with a stake-program instruction (and a positive delta). -/
def stakeTx : ParsedTransactionWithMeta :=
  ⟨some ⟨[5], [9], 2, [], false⟩, [⟨some "StakeProgram1111111"⟩]⟩

/-- A record with positive delta and no token or stake markers. -/
def recvTx : ParsedTransactionWithMeta :=
  ⟨some ⟨[5], [9], 2, [], false⟩, []⟩

/-- A signature-list entry used by the concrete records below. -/
def sig0 : SigInfo := ⟨"sig0", 1, none⟩

/-- Witness for C1: the stake override fires on a positive-delta record with
a stake instruction, and a marker-free positive-delta record is `received`. -/
theorem C1_witness :
    (hasStakeInstruction stakeTx = true ∧
      (parseTransaction "pk" sig0 stakeTx).type = .stake) ∧
    (hasStakeInstruction recvTx = false ∧ tokenTransfers recvTx = [] ∧
      0 < balanceChange recvTx ∧ (parseTransaction "pk" sig0 recvTx).type = .received) :=
  ⟨⟨by decide, (C1_classification_precedence "pk" sig0 stakeTx).1 (by decide)⟩,
   ⟨by decide, by decide, by decide,
    (C1_classification_precedence "pk" sig0 recvTx).2.2.1 (by decide) (by decide) (by decide)⟩⟩

/-! ### C6: the displayed amount of a `sent` record -/

/-- C6 (amended): for a record with a negative first-account balance delta
the displayed amount is `|delta + fee| / 1e9`; whenever the fee does not
exceed the magnitude of the delta this equals the claimed fee-excluded
magnitude `(|delta| − fee) / 1e9`. -/
theorem C6_sent_amount (pk : String) (sig : SigInfo) (tx : ParsedTransactionWithMeta)
    (h : balanceChange tx < 0) :
    (parseTransaction pk sig tx).amount =
      ((balanceChange tx + (feeLamports tx : ℤ)).natAbs : ℚ) / 1000000000 ∧
    ((feeLamports tx : ℤ) ≤ (balanceChange tx).natAbs →
      (parseTransaction pk sig tx).amount =
        (((balanceChange tx).natAbs : ℚ) - (feeLamports tx : ℚ)) / 1000000000) := by
  have h1 : ¬ 0 < balanceChange tx := by omega
  have hamt : (parseTransaction pk sig tx).amount =
      ((balanceChange tx + (feeLamports tx : ℤ)).natAbs : ℚ) / 1000000000 := by
    simp [parseTransaction, h, h1]
  refine ⟨hamt, fun hf => ?_⟩
  have hle : feeLamports tx ≤ (balanceChange tx).natAbs := by omega
  have hnn : (balanceChange tx + (feeLamports tx : ℤ)).natAbs
      = (balanceChange tx).natAbs - feeLamports tx := by omega
  rw [hamt, hnn, Nat.cast_sub hle]

/-- A `sent` record whose fee (5) exceeds the delta magnitude (1). -/
def sentSmallTx : ParsedTransactionWithMeta := ⟨some ⟨[100], [99], 5, [], false⟩, []⟩

/-- A `sent` record with delta `-10` and fee `3`. -/
def sentBigTx : ParsedTransactionWithMeta := ⟨some ⟨[100], [90], 3, [], false⟩, []⟩

/-- C6 counterexample: at delta `-1` and fee `5` the record classifies
`sent` and the source displays `|(-1) + 5| / 1e9 = 4e-9`, while the claimed
`(|delta| − fee)/1e9` is `-4e-9`; the two differ. -/
theorem C6_counterexample :
    balanceChange sentSmallTx = -1 ∧ feeLamports sentSmallTx = 5 ∧
    (parseTransaction "pk" sig0 sentSmallTx).type = .sent ∧
    (parseTransaction "pk" sig0 sentSmallTx).amount = 4 / 1000000000 ∧
    (parseTransaction "pk" sig0 sentSmallTx).amount ≠
      (((balanceChange sentSmallTx).natAbs : ℚ) - (feeLamports sentSmallTx : ℚ)) / 1000000000 := by
  have h := C6_sent_amount "pk" sig0 sentSmallTx (by decide)
  refine ⟨by decide, by decide, by decide, ?_, ?_⟩
  · rw [h.1]
    norm_num [sentSmallTx, balanceChange, preBalance0, postBalance0, feeLamports]
  · rw [h.1]
    norm_num [sentSmallTx, balanceChange, preBalance0, postBalance0, feeLamports]

/-- Witness for C6 at delta `-10`, fee `3`: amount `7e-9 = (10 - 3)/1e9`. -/
theorem C6_witness :
    balanceChange sentBigTx < 0 ∧
    (feeLamports sentBigTx : ℤ) ≤ (balanceChange sentBigTx).natAbs ∧
    (parseTransaction "pk" sig0 sentBigTx).amount =
      (((balanceChange sentBigTx).natAbs : ℚ) - (feeLamports sentBigTx : ℚ)) / 1000000000 :=
  ⟨by decide, by decide, (C6_sent_amount "pk" sig0 sentBigTx (by decide)).2 (by decide)⟩

/-! ### C8: address truncation on short addresses -/

/-- C8 (amended): `formatAddress` is total, empty input returns the empty
string, `formatPublicKey` is the same function, and for every non-empty
address shorter than twice `chars` the result is
`take chars ++ "..." ++ lastChars chars` — the address's first
`min chars length` characters are a prefix of the result and its last
`min chars length` characters a suffix; when the address has at least
`chars` characters the result's first (respectively last) `chars` characters
are exactly the address's first (respectively last) `chars` characters.  (The
claimed equality of leading/trailing characters holds only in that case; see
the counterexample for addresses shorter than `chars`.) -/
theorem C8_formatAddress_short (a : String) (c : ℕ)
    (h1 : a ≠ "") (h2 : a.data.length < 2 * c) :
    (∀ k, formatAddress "" k = "") ∧
    (∀ s k, formatPublicKey s k = formatAddress s k) ∧
    formatAddress a c = strTake a c ++ "..." ++ strTakeRight a c ∧
    (strTake a c).data <+: (formatAddress a c).data ∧
    (strTakeRight a c).data <:+ (formatAddress a c).data ∧
    (c ≤ a.data.length →
      (formatAddress a c).data.take c = a.data.take c ∧
      (formatAddress a c).data.drop ((formatAddress a c).data.length - c)
        = a.data.drop (a.data.length - c)) := by
  have hc0 : c ≠ 0 := by
    intro hc
    subst hc
    have : a.data ≠ [] := fun hnil => h1 (by cases a; simp_all)
    have : 0 < a.data.length := List.length_pos.mpr this
    omega
  have heq : formatAddress a c = strTake a c ++ "..." ++ strTakeRight a c := by
    rw [formatAddress, if_neg h1, jsSliceNeg, if_neg hc0]
  have hdata : (formatAddress a c).data
      = a.data.take c ++ "...".data ++ a.data.drop (a.data.length - c) := by
    rw [heq]
    simp [sdata_append, strTake, strTakeRight]
  refine ⟨fun k => rfl, fun s k => rfl, heq, ?_, ?_, ?_⟩
  · exact ⟨"...".data ++ a.data.drop (a.data.length - c), by
      rw [hdata]; simp [strTake]⟩
  · exact ⟨a.data.take c ++ "...".data, by
      rw [hdata]; simp [strTakeRight]⟩
  · intro hle
    have htlen : (a.data.take c).length = c := by
      rw [List.length_take]
      exact Nat.min_eq_left hle
    have hdlen : (a.data.drop (a.data.length - c)).length = c := by
      rw [List.length_drop]
      omega
    constructor
    · rw [hdata, List.append_assoc]
      exact List.take_left' htlen
    · have hsub : (a.data.take c ++ "...".data ++ a.data.drop (a.data.length - c)).length - c
          = (a.data.take c ++ "...".data).length := by
        rw [List.length_append, hdlen]
        omega
      rw [hdata, hsub, List.drop_left]

/-- C8 counterexample: for the address `"AB"` with `chars = 4` (length `2`,
shorter than `2·4`) the source returns `"AB...AB"`, whose first four
characters are `"AB.."` — not the first four characters of the address — so
the claimed equality of leading characters fails once the address is shorter
than `chars` itself (though the original characters do remain at both ends). -/
theorem C8_counterexample :
    ("AB" : String) ≠ "" ∧ ("AB" : String).data.length < 2 * 4 ∧
    formatAddress "AB" 4 = "AB...AB" ∧
    (formatAddress "AB" 4).data.take 4 ≠ ("AB" : String).data.take 4 := by
  exact ⟨by decide, by decide, by decide, by decide⟩

/-- Witness for C8 at address `"ABCDE"`, `chars = 4` (length 5, between
`chars` and `2·chars`). -/
theorem C8_witness :
    ("ABCDE" : String) ≠ "" ∧ ("ABCDE" : String).data.length < 2 * 4 ∧
    4 ≤ ("ABCDE" : String).data.length ∧
    formatAddress "ABCDE" 4 = strTake "ABCDE" 4 ++ "..." ++ strTakeRight "ABCDE" 4 ∧
    (formatAddress "ABCDE" 4).data.take 4 = ("ABCDE" : String).data.take 4 := by
  have h := C8_formatAddress_short "ABCDE" 4 (by decide) (by decide)
  exact ⟨by decide, by decide, by decide, h.2.2.1, (h.2.2.2.2.2 (by decide)).1⟩

/-! ### C5: three-tier balance precision -/

/-- C5: `formatBalance` uses three-tier precision — input `0` yields the
string `0.00`; a positive balance below `0.001` is rendered with exactly six
decimals; a balance in `[0.001, 1)` with exactly four; a balance of at least
`1` with exactly two. -/
theorem C5_formatBalance_tiers (q : ℚ) :
    formatBalance 0 = "0.00" ∧
    (0 < q → q < 0.001 → formatBalance q = jsToFixed q 6 ∧ decForm (formatBalance q) 6) ∧
    ((0.001 : ℚ) ≤ q → q < 1 → formatBalance q = jsToFixed q 4 ∧ decForm (formatBalance q) 4) ∧
    ((1 : ℚ) ≤ q → formatBalance q = jsToFixed q 2 ∧ decForm (formatBalance q) 2) := by
  refine ⟨by norm_num [formatBalance], ?_, ?_, ?_⟩
  · intro h1 h2
    have heq : formatBalance q = jsToFixed q 6 := by
      rw [formatBalance, if_neg (by positivity), if_pos h2]
    exact ⟨heq, heq ▸ jsToFixed_decForm q 6 h1.le (by norm_num)⟩
  · intro h1 h2
    have h0 : (0 : ℚ) < q := lt_of_lt_of_le (by norm_num) h1
    have heq : formatBalance q = jsToFixed q 4 := by
      rw [formatBalance, if_neg (by positivity), if_neg (not_lt.mpr h1), if_pos h2]
    exact ⟨heq, heq ▸ jsToFixed_decForm q 4 h0.le (by norm_num)⟩
  · intro h1
    have h0 : (0 : ℚ) < q := lt_of_lt_of_le (by norm_num) h1
    have heq : formatBalance q = jsToFixed q 2 := by
      rw [formatBalance, if_neg (by positivity), if_neg (by linarith), if_neg (not_lt.mpr h1)]
    exact ⟨heq, heq ▸ jsToFixed_decForm q 2 h0.le (by norm_num)⟩

/-- Witness for C5 at `0`, `0.0005`, `0.5` and `5`: the zero string, and
six-, four- and two-decimal forms respectively. -/
theorem C5_witness :
    formatBalance 0 = "0.00" ∧
    ((0 : ℚ) < 0.0005 ∧ (0.0005 : ℚ) < 0.001 ∧ decForm (formatBalance 0.0005) 6) ∧
    ((0.001 : ℚ) ≤ 0.5 ∧ (0.5 : ℚ) < 1 ∧ decForm (formatBalance 0.5) 4) ∧
    ((1 : ℚ) ≤ 5 ∧ decForm (formatBalance 5) 2) :=
  ⟨(C5_formatBalance_tiers 1).1,
   ⟨by norm_num, by norm_num,
    ((C5_formatBalance_tiers 0.0005).2.1 (by norm_num) (by norm_num)).2⟩,
   ⟨by norm_num, by norm_num,
    ((C5_formatBalance_tiers 0.5).2.2.1 (by norm_num) (by norm_num)).2⟩,
   ⟨by norm_num, ((C5_formatBalance_tiers 5).2.2.2 (by norm_num)).2⟩⟩

/-! ### C9: K/M/B magnitude suffixes -/

/-- C9 (amended): `formatNumber` compares the signed value — not the
magnitude — against the thresholds: a value of at least `1e9` is rendered as
the value divided by `1e9` with two fixed decimals and suffix `B`, likewise
`M` from `1e6` and `K` from `1e3`, and every smaller value — including every
negative number, whatever its magnitude — is returned as its plain string
form with no suffix. -/
theorem C9_formatNumber_suffixes (q : ℚ) :
    ((1000000000 : ℚ) ≤ q →
      formatNumber q = jsToFixed (q / 1000000000) 2 ++ "B" ∧
        sufForm (formatNumber q) 2 'B') ∧
    ((1000000 : ℚ) ≤ q → q < 1000000000 →
      formatNumber q = jsToFixed (q / 1000000) 2 ++ "M" ∧
        sufForm (formatNumber q) 2 'M') ∧
    ((1000 : ℚ) ≤ q → q < 1000000 →
      formatNumber q = jsToFixed (q / 1000) 2 ++ "K" ∧
        sufForm (formatNumber q) 2 'K') ∧
    (q < 1000 → formatNumber q = jsNumToString q) := by
  refine ⟨?_, ?_, ?_, ?_⟩
  · intro h1
    have heq : formatNumber q = jsToFixed (q / 1000000000) 2 ++ "B" := by
      rw [formatNumber, if_pos h1]
    refine ⟨heq, heq ▸ sufForm_append_char _ 2 "B" 'B' ?_ rfl⟩
    exact jsToFixed_decForm _ 2 (by positivity) (by norm_num)
  · intro h1 h2
    have heq : formatNumber q = jsToFixed (q / 1000000) 2 ++ "M" := by
      rw [formatNumber, if_neg (not_le.mpr h2), if_pos h1]
    refine ⟨heq, heq ▸ sufForm_append_char _ 2 "M" 'M' ?_ rfl⟩
    exact jsToFixed_decForm _ 2 (by positivity) (by norm_num)
  · intro h1 h2
    have heq : formatNumber q = jsToFixed (q / 1000) 2 ++ "K" := by
      rw [formatNumber, if_neg (by linarith), if_neg (not_le.mpr h2), if_pos h1]
    refine ⟨heq, heq ▸ sufForm_append_char _ 2 "K" 'K' ?_ rfl⟩
    exact jsToFixed_decForm _ 2 (by positivity) (by norm_num)
  · intro h1
    rw [formatNumber, if_neg (by linarith), if_neg (by linarith), if_neg (not_le.mpr h1)]

/-- C9 counterexample: at `-1e9` — whose magnitude is `1e9` — the claim
demands the `B`-suffixed two-decimal form, but the source compares the
signed value, takes the plain branch, and returns a string starting with the
sign character, which differs from the claimed `B`-suffixed form of the
magnitude. -/
theorem C9_counterexample :
    formatNumber (-1000000000 : ℚ) = jsNumToString (-1000000000 : ℚ) ∧
    (jsNumToString (-1000000000 : ℚ)).data.head? = some '-' ∧
    (jsToFixed ((1000000000 : ℚ) / 1000000000) 2 ++ "B").data.head? = some '1' ∧
    formatNumber (-1000000000 : ℚ) ≠ jsToFixed ((1000000000 : ℚ) / 1000000000) 2 ++ "B" := by
  have hplain : formatNumber (-1000000000 : ℚ) = jsNumToString (-1000000000 : ℚ) :=
    (C9_formatNumber_suffixes (-1000000000)).2.2.2 (by norm_num)
  have hcast : (-1000000000 : ℚ) = ((-1000000000 : ℤ) : ℚ) := by norm_num
  have hnum : (-1000000000 : ℚ).num = -1000000000 := by rw [hcast, Rat.num_intCast]
  have hden : (-1000000000 : ℚ).den = 1 := by rw [hcast, Rat.den_intCast]
  have hhead : (jsNumToString (-1000000000 : ℚ)).data.head? = some '-' := by
    rw [jsNumToString, hnum, hden]
    norm_num
    decide
  have hone : ((1000000000 : ℚ) / 1000000000) = 1 := by norm_num
  have hhead2 : (jsToFixed ((1000000000 : ℚ) / 1000000000) 2 ++ "B").data.head? = some '1' := by
    rw [hone, sdata_append, jsToFixed, Rat.num_one, Rat.den_one]
    decide
  refine ⟨hplain, hhead, hhead2, fun hcontra => ?_⟩
  rw [hplain] at hcontra
  rw [hcontra, hhead2] at hhead
  exact absurd hhead (by decide)

/-- Witness for C9 at `2.5e9` (B tier) and `500` (plain tier). -/
theorem C9_witness :
    ((1000000000 : ℚ) ≤ 2500000000 ∧ sufForm (formatNumber 2500000000) 2 'B') ∧
    ((500 : ℚ) < 1000 ∧ formatNumber 500 = jsNumToString 500) :=
  ⟨⟨by norm_num, ((C9_formatNumber_suffixes 2500000000).1 (by norm_num)).2⟩,
   ⟨by norm_num, (C9_formatNumber_suffixes 500).2.2.2 (by norm_num)⟩⟩

/-! ### C2: transfer-form validation -/

/-- C2 (amended): `validateInputs` short-circuits on the first failure in
the fixed order — recipient non-empty, then the amount coerces to a value
that is neither `NaN` nor `≤ 0` (positive infinity is accepted even though it
is not finite — see the counterexample), then the recipient parses as an
address — rejecting empty recipient, `NaN` amount, non-positive amount and
malformed address each independently with its own message; validation
succeeds exactly when all three checks pass; and `handleSendSol` returns on a
failed validation before its try block, so every rejection happens with no
network call made. -/
theorem C2_validation (numberOf : String → JsNum) (isValidKey : String → Bool)
    (recipient amount : String) (connected : Bool) (publicKey : Option String)
    (conn : SendConnection) :
    (jsTrim recipient = "" →
      validateInputs numberOf isValidKey recipient amount
        = .invalid "Recipient address is required") ∧
    (jsTrim recipient ≠ "" → jsIsNaN (numberOf amount) = true →
      validateInputs numberOf isValidKey recipient amount
        = .invalid "Please enter a valid amount") ∧
    (jsTrim recipient ≠ "" → ∀ q : ℚ, numberOf amount = .fin q → q ≤ 0 →
      validateInputs numberOf isValidKey recipient amount
        = .invalid "Please enter a valid amount") ∧
    (jsTrim recipient ≠ "" → jsTrim amount = "" →
      validateInputs numberOf isValidKey recipient amount
        = .invalid "Please enter a valid amount") ∧
    (jsTrim recipient ≠ "" → jsTrim amount ≠ "" → jsIsNaN (numberOf amount) = false →
      jsLe (numberOf amount) (.fin 0) = false → isValidKey recipient = false →
      validateInputs numberOf isValidKey recipient amount
        = .invalid "Invalid recipient address") ∧
    (validateInputs numberOf isValidKey recipient amount = .valid ↔
      jsTrim recipient ≠ "" ∧ jsTrim amount ≠ "" ∧ jsIsNaN (numberOf amount) = false ∧
        jsLe (numberOf amount) (.fin 0) = false ∧ isValidKey recipient = true) ∧
    (∀ msg, validateInputs numberOf isValidKey recipient amount = .invalid msg →
      (handleSendSol numberOf isValidKey connected publicKey recipient amount conn).1 = []) := by
  refine ⟨?_, ?_, ?_, ?_, ?_, ?_, ?_⟩
  · intro h1
    rw [validateInputs, if_pos h1]
  · intro h1 h2
    rw [validateInputs, if_neg h1, if_pos (by simp [h2])]
  · intro h1 q hq hq0
    have hle : jsLe (numberOf amount) (.fin 0) = true := by
      rw [hq]
      simpa [jsLe] using hq0
    rw [validateInputs, if_neg h1, if_pos (by simp [hle])]
  · intro h1 h2
    rw [validateInputs, if_neg h1, if_pos (by simp [h2])]
  · intro h1 h2 h3 h4 h5
    rw [validateInputs, if_neg h1, if_neg (by simp [h2, h3, h4]), if_pos (by simp [h5])]
  · constructor
    · intro hv
      rw [validateInputs] at hv
      by_cases h1 : jsTrim recipient = ""
      · rw [if_pos h1] at hv; cases hv
      · rw [if_neg h1] at hv
        by_cases h2 : (jsTrim amount = "" || jsIsNaN (numberOf amount)
            || jsLe (numberOf amount) (.fin 0)) = true
        · rw [if_pos h2] at hv; cases hv
        · rw [if_neg h2] at hv
          by_cases h3 : isValidKey recipient = true
          · simp only [Bool.or_eq_true, decide_eq_true_eq, not_or] at h2
            exact ⟨h1, by simpa using h2.1.1, by simpa using h2.1.2, by simpa using h2.2, h3⟩
          · rw [if_pos (by simp [Bool.not_eq_true] at h3; simp [h3])] at hv
            cases hv
    · rintro ⟨h1, h2, h3, h4, h5⟩
      rw [validateInputs, if_neg h1, if_neg (by simp [h2, h3, h4]), if_neg (by simp [h5])]
  · intro msg hval
    rw [handleSendSol]
    by_cases hw : (!connected || publicKey.isNone) = true
    · rw [if_pos hw]
    · rw [if_neg hw, hval]

/-- C2 counterexample: with the real `Number` coercion the amount string
`Infinity` coerces to positive infinity — not a finite number — and yet
validation succeeds (with an always-accepting address parser standing in for
the SDK's `PublicKey`), so successful validation does not certify that the
amount is a positive finite number, only that it is non-`NaN` and positive. -/
theorem C2_counterexample :
    jsNumber "Infinity" = .inf ∧
    validateInputs jsNumber (fun _ => true) "RecipientAddress" "Infinity" = .valid := by
  exact ⟨by decide, by decide⟩

/-- The send-flow connection in which every call succeeds. -/
def sendConnOk : SendConnection := ⟨.ok 0, .ok "bh", .ok "signature1", fun _ => .ok ()⟩

/-- Witness for C2: an empty recipient is rejected with the recipient
message, and the rejecting run of `handleSendSol` makes no network call. -/
theorem C2_witness :
    jsTrim "" = "" ∧
    validateInputs (fun _ => .fin 1) (fun _ => true) "" "2"
      = .invalid "Recipient address is required" ∧
    (handleSendSol (fun _ => .fin 1) (fun _ => true) true (some "pk") "" "2" sendConnOk).1
      = [] := by
  have h := C2_validation (fun _ => .fin 1) (fun _ => true) "" "2" true (some "pk") sendConnOk
  exact ⟨rfl, h.1 rfl, h.2.2.2.2.2.2 _ (h.1 rfl)⟩

end SolanaApp
